import Mathlib

/-!
Shallow embedding of the biznews-mcp service core (src/index.ts): the
headline-normalization pipeline (`mapTheNewsApiToNewsApiArticles`,
`fetchTopHeadlines`) and the two tool handlers (`news`, `business_news`).

JSON values are modelled by the inductive `Json`; a JavaScript value that
may be `undefined` is modelled as `Option Json` (with `none` standing for
`undefined` and `some Json.null` for an explicit `null`).  The outbound
HTTP fetch and the model call are modelled by their observable outcomes
(`HttpResponse`, `ModelOutcome`); `JSON.parse` is modelled by the
executable parser `jsonParse` below (number literals are modelled as
integers; fractional and exponent forms, and \u escapes, are outside the
modelled fragment).
-/

/-- A JSON value.  Objects are association lists in iteration order. -/
inductive Json where
  | null : Json
  | bool : Bool → Json
  | num : Int → Json
  | str : String → Json
  | arr : List Json → Json
  | obj : List (String × Json) → Json

/-- Key lookup in an object's field list (first match; keys are unique in
any object produced by parsing or by the provider). -/
def lookupKV : List (String × Json) → String → Option Json
  | [], _ => none
  | (k', v) :: rest, k => if k' = k then some v else lookupKV rest k

/-- JavaScript optional property access `j?.k`: `undefined` (`none`) unless
`j` is an object with field `k`.  On `null` and on primitives the access
yields `undefined`, as in JavaScript. -/
def jsGet (j : Json) (k : String) : Option Json :=
  match j with
  | Json.obj kvs => lookupKV kvs k
  | _ => none

/-- Chained optional access `v?.k` where `v` itself may be `undefined`. -/
def jsOptGet (v : Option Json) (k : String) : Option Json :=
  match v with
  | some j => jsGet j k
  | none => none

/-- JavaScript nullish coalescing `x ?? y`. -/
def nullish (x y : Option Json) : Option Json :=
  match x with
  | none => y
  | some Json.null => y
  | some v => some v

/-- The `NewsApiArticle` record built by the mapper (src/index.ts lines
56-70).  Each field holds the JavaScript value stored under that key:
`none` models `undefined` (the field is dropped on serialization),
`some Json.null` models an explicit `null`. -/
structure NewsApiArticle where
  uuid : Option Json
  title : Option Json
  description : Option Json
  keywords : Option Json
  snippet : Option Json
  url : Option Json
  image_url : Option Json
  language : Option Json
  published_at : Option Json
  source : Option Json
  categories : Option Json
  relevance_score : Option Json
  locale : Option Json

/-- The per-element body of `items.map` in `mapTheNewsApiToNewsApiArticles`
(src/index.ts lines 56-70), field by field. -/
def mapArticle (a : Json) : NewsApiArticle :=
  { uuid := jsGet a "uuid"
    title := nullish (jsGet a "title") none
    description := nullish (jsGet a "description") (some Json.null)
    keywords := nullish (jsGet a "keywords") (some Json.null)
    snippet := nullish (jsGet a "snippet") (some Json.null)
    url := nullish (jsGet a "url") none
    image_url := nullish (jsGet a "image_url") (some Json.null)
    language := nullish (jsGet a "language") none
    published_at := nullish (jsGet a "published_at") none
    source :=
      match jsGet a "source" with
      | some (Json.str s) => some (Json.str s)
      | v => nullish (jsOptGet v "domain") (some Json.null)
    categories :=
      match jsGet a "categories" with
      | some (Json.arr xs) => some (Json.arr xs)
      | _ => some Json.null
    relevance_score :=
      match jsGet a "relevance_score" with
      | some (Json.num n) => some (Json.num n)
      | _ => some Json.null
    locale := nullish (jsGet a "locale") (some Json.null) }

/-- Loop body of the category flattening (src/index.ts lines 49-53): an
array-valued entry's elements are appended to the accumulated items, any
other entry is skipped. -/
def pushArrays (acc : List Json) (kv : String × Json) : List Json :=
  match kv.2 with
  | Json.arr xs => acc ++ xs
  | _ => acc

/-- `mapTheNewsApiToNewsApiArticles` (src/index.ts lines 41-71): extract
`json.data`; if it is an array take it, else if it is an object push every
array-valued entry in iteration order, else take the empty list; then map
each item through the field mapping. -/
def mapTheNewsApiToNewsApiArticles (json : Json) : List NewsApiArticle :=
  let data := jsGet json "data"
  let items : List Json :=
    match data with
    | some (Json.arr xs) => xs
    | some (Json.obj kvs) => kvs.foldl pushArrays []
    | _ => []
  items.map mapArticle

/-- The elements an entry contributes to the flattened item list: the
elements of an array-valued entry, nothing otherwise. -/
def jsonArrElems : Json → List Json
  | Json.arr xs => xs
  | _ => []

/-- Synthesized summary record (src/index.ts lines 82-87). -/
structure NewsApiMeta where
  found : Nat
  returned : Nat
  limit : Nat
  page : Nat

structure NewsApiResponse where
  meta : NewsApiMeta
  data : List NewsApiArticle

/-- Observable outcome of the outbound provider call: the HTTP success
flag and the response body as parsed JSON. -/
structure HttpResponse where
  ok : Bool
  body : Json

/-- `fetchTopHeadlines` (src/index.ts lines 73-89), as a function of the
provider's response: throw (`Except.error`) on a non-success status,
otherwise normalize the body and synthesize the summary record. -/
def fetchTopHeadlines (res : HttpResponse) : Except String NewsApiResponse :=
  if !res.ok then Except.error "Failed to fetch top headlines"
  else
    let articles := mapTheNewsApiToNewsApiArticles res.body
    Except.ok
      { meta :=
          { found := articles.length
            returned := articles.length
            limit := articles.length
            page := 1 }
        data := articles }

/-- The data handed to `toolJson` by a handler: each constructor is one of
the three distinct `toolJson(...)` call sites. -/
inductive ToolOutput where
  | errorEnvelope (msg : String)
  | articlesEnvelope (articles : List Json)
  | newsEnvelope (r : NewsApiResponse)

/-- The `news` tool handler (src/index.ts lines 108-116): return the fetch
result, or the caught error's message in an error envelope. -/
def newsHandler (res : HttpResponse) : ToolOutput :=
  match fetchTopHeadlines res with
  | Except.ok r => ToolOutput.newsEnvelope r
  | Except.error msg => ToolOutput.errorEnvelope msg

theorem jsGet_obj (kvs : List (String × Json)) (k : String) :
    jsGet (Json.obj kvs) k = lookupKV kvs k := rfl

/-! ### A model of `JSON.parse`

`business_news` parses the model's textual reply with `JSON.parse`.  The
parser below implements the JSON grammar over `List Char`, restricted to
integer number literals and to the single-character string escapes; the
fragment suffices for every shape the handler distinguishes. -/

/-- Whitespace skipping between JSON tokens. -/
def skipWs (cs : List Char) : List Char :=
  cs.dropWhile (fun c => c = ' ' ∨ c = '\n' ∨ c = '\t' ∨ c = '\r')

/-- Single-character JSON string escapes (`\uXXXX` is outside the modelled
fragment). -/
def unescape (c : Char) : Option Char :=
  if c = '"' then some '"'
  else if c = '\\' then some '\\'
  else if c = '/' then some '/'
  else if c = 'n' then some '\n'
  else if c = 't' then some '\t'
  else if c = 'r' then some '\r'
  else if c = 'b' then some (Char.ofNat 8)
  else if c = 'f' then some (Char.ofNat 12)
  else none

/-- Parse the remainder of a JSON string after the opening quote. -/
def parseStringRest : List Char → Option (String × List Char)
  | [] => none
  | c :: rest =>
    if c = '"' then some ("", rest)
    else if c = '\\' then
      match rest with
      | [] => none
      | e :: rest2 =>
        match unescape e with
        | some u =>
          match parseStringRest rest2 with
          | some (s, r) => some (String.mk (u :: s.data), r)
          | none => none
        | none => none
    else if c.toNat < 32 then none
    else
      match parseStringRest rest with
      | some (s, r) => some (String.mk (c :: s.data), r)
      | none => none

/-- Take a maximal run of decimal digits. -/
def takeDigits : List Char → List Char × List Char
  | [] => ([], [])
  | c :: rest =>
    if c.isDigit then
      let (ds, r) := takeDigits rest
      (c :: ds, r)
    else ([], c :: rest)

def digitsVal (ds : List Char) : Nat :=
  ds.foldl (fun acc c => acc * 10 + (c.toNat - 48)) 0

/-- Parse a JSON integer literal (optional minus, no leading zeros; a
following `.`, `e` or `E` puts the input outside the modelled fragment
and the parse fails). -/
def parseNum (cs : List Char) : Option (Json × List Char) :=
  let (neg, cs') :=
    match cs with
    | '-' :: rest => (true, rest)
    | _ => (false, cs)
  let (ds, r) := takeDigits cs'
  if ds = [] then none
  else if 1 < ds.length ∧ ds.headD '0' = '0' then none
  else
    match r with
    | c :: _ => if c = '.' ∨ c = 'e' ∨ c = 'E' then none
                else some (Json.num (if neg then -(digitsVal ds : Int) else (digitsVal ds : Int)), r)
    | [] => some (Json.num (if neg then -(digitsVal ds : Int) else (digitsVal ds : Int)), [])

def eraseKey : List (String × Json) → String → List (String × Json)
  | [], _ => []
  | (k', v') :: rest, k =>
    if k' = k then eraseKey rest k else (k', v') :: eraseKey rest k

/-- JavaScript duplicate-key semantics for object literals produced by
`JSON.parse`: prepend member `(k, v)` to the already-resolved later
members `kvs`; if `k` occurs again later, the first occurrence keeps its
position but the later value wins. -/
def consMember (k : String) (v : Json) (kvs : List (String × Json)) :
    List (String × Json) :=
  match lookupKV kvs k with
  | some v' => (k, v') :: eraseKey kvs k
  | none => (k, v) :: kvs

def lbraceChar : Char := Char.ofNat 123

def rbraceChar : Char := Char.ofNat 125

mutual

/-- Parse one JSON value (fuel-indexed recursion; the fuel bounds the
nesting depth and one unit is consumed per opening bracket or comma). -/
def parseVal : Nat → List Char → Option (Json × List Char)
  | 0, _ => none
  | fuel + 1, cs =>
    match skipWs cs with
    | 'n' :: 'u' :: 'l' :: 'l' :: rest => some (Json.null, rest)
    | 't' :: 'r' :: 'u' :: 'e' :: rest => some (Json.bool true, rest)
    | 'f' :: 'a' :: 'l' :: 's' :: 'e' :: rest => some (Json.bool false, rest)
    | c :: rest =>
      if c = '"' then
        match parseStringRest rest with
        | some (s, r) => some (Json.str s, r)
        | none => none
      else if c = '[' then
        match skipWs rest with
        | ']' :: r => some (Json.arr [], r)
        | _ =>
          match parseElems fuel rest with
          | some (xs, r) => some (Json.arr xs, r)
          | none => none
      else if c = lbraceChar then
        match skipWs rest with
        | r0 :: r =>
          if r0 = rbraceChar then some (Json.obj [], r)
          else
            match parseMembers fuel (r0 :: r) with
            | some (kvs, r') => some (Json.obj kvs, r')
            | none => none
        | [] => none
      else parseNum (c :: rest)
    | [] => none

/-- Parse the comma-separated elements of a non-empty array, up to and
including the closing bracket. -/
def parseElems : Nat → List Char → Option (List Json × List Char)
  | 0, _ => none
  | fuel + 1, cs =>
    match parseVal fuel cs with
    | some (v, r) =>
      match skipWs r with
      | ',' :: r2 =>
        match parseElems fuel r2 with
        | some (vs, r3) => some (v :: vs, r3)
        | none => none
      | ']' :: r2 => some ([v], r2)
      | _ => none
    | none => none

/-- Parse the comma-separated members of a non-empty object, up to and
including the closing brace, resolving duplicate keys as JavaScript does. -/
def parseMembers : Nat → List Char → Option (List (String × Json) × List Char)
  | 0, _ => none
  | fuel + 1, cs =>
    match skipWs cs with
    | c :: rest =>
      if c = '"' then
        match parseStringRest rest with
        | some (k, r) =>
          match skipWs r with
          | ':' :: r2 =>
            match parseVal fuel r2 with
            | some (v, r3) =>
              match skipWs r3 with
              | ',' :: r4 =>
                match parseMembers fuel r4 with
                | some (kvs, r5) => some (consMember k v kvs, r5)
                | none => none
              | c' :: r4 => if c' = rbraceChar then some ([(k, v)], r4) else none
              | [] => none
            | none => none
          | _ => none
        | none => none
      else none
    | [] => none

end

/-- `JSON.parse`: parse one value and require only whitespace to follow. -/
def jsonParse (s : String) : Option Json :=
  match parseVal (s.length + 1) s.data with
  | some (v, rest) => if skipWs rest = [] then some v else none
  | none => none

/-! ### The `business_news` handler -/

/-- Observable outcome of the model call
`openai.chat.completions.create(...)`: either the promise rejected (the
thrown error's message, as read by the outer catch), or it resolved and
`completion.choices?.[0]?.message?.content` is the given value (`none`
models a missing or `null` content). -/
inductive ModelOutcome where
  | failure (msg : String)
  | success (content : Option String)

/-- `typeof content === "string" ? content : ""` (src/index.ts line 160). -/
def contentToString (content : Option String) : String :=
  match content with
  | some s => s
  | none => ""

/-- `JSON.parse(contentString || "{}")` with its surrounding try/catch
(src/index.ts line 161): an empty string falls back to the literal text
of an empty object; a parse failure is caught (`none`). -/
def parseContent (cs : String) : Option Json :=
  jsonParse (if cs = "" then "\x7b\x7d" else cs)

/-- The shape dispatch on the parsed model reply (src/index.ts lines
162-166): an array is the filtered list; an object with an `articles`
array yields that array; anything else (including a caught parse failure)
leaves the list empty. -/
def parseToArticles (p : Option Json) : List Json :=
  match p with
  | some (Json.arr xs) => xs
  | some j =>
    match jsGet j "articles" with
    | some (Json.arr xs) => xs
    | _ => []
  | none => []

/-- The `business_news` tool handler (src/index.ts lines 125-177) as a
function of the provider response, the raw `OPENAI_API_KEY` environment
value (`none` = unset), and the model-call outcome.  The fetch runs first
and a thrown fetch error reaches the outer catch; then the key check; then
the model call, whose rejection also reaches the outer catch; finally the
reply is parsed and the articles envelope returned. -/
def businessNewsHandler (res : HttpResponse) (envOpenaiKey : Option String)
    (model : ModelOutcome) : ToolOutput :=
  match fetchTopHeadlines res with
  | Except.error msg => ToolOutput.errorEnvelope msg
  | Except.ok _ =>
    let openaiKey := envOpenaiKey.getD ""
    if openaiKey = "" then ToolOutput.errorEnvelope "Missing OPENAI_API_KEY"
    else
      match model with
      | ModelOutcome.failure msg => ToolOutput.errorEnvelope msg
      | ModelOutcome.success content =>
        ToolOutput.articlesEnvelope
          (parseToArticles (parseContent (contentToString content)))

/-! ### Helper lemmas -/

theorem foldl_pushArrays (kvs : List (String × Json)) (acc : List Json) :
    kvs.foldl pushArrays acc
      = acc ++ ((kvs.map (fun kv => jsonArrElems kv.2)).flatten) := by
  induction kvs generalizing acc with
  | nil => simp
  | cons hd tl ih =>
    obtain ⟨k, v⟩ := hd
    cases v <;> simp [pushArrays, jsonArrElems, ih, List.append_assoc]

theorem nullish_some_of_ne_null (v : Json) (y : Option Json)
    (h : v ≠ Json.null) : nullish (some v) y = some v := by
  cases v <;> first | exact absurd rfl h | rfl

theorem fetchTopHeadlines_ok (res : HttpResponse) (h : res.ok = true) :
    fetchTopHeadlines res
      = Except.ok
          { meta :=
              { found := (mapTheNewsApiToNewsApiArticles res.body).length
                returned := (mapTheNewsApiToNewsApiArticles res.body).length
                limit := (mapTheNewsApiToNewsApiArticles res.body).length
                page := 1 }
            data := mapTheNewsApiToNewsApiArticles res.body } := by
  simp [fetchTopHeadlines, h]

theorem businessNewsHandler_success_path (res : HttpResponse) (k : String)
    (content : Option String) (hok : res.ok = true) (hk : ¬k = "") :
    businessNewsHandler res (some k) (ModelOutcome.success content)
      = ToolOutput.articlesEnvelope
          (parseToArticles (parseContent (contentToString content))) := by
  rw [businessNewsHandler, fetchTopHeadlines_ok res hok]
  simp [hk]

theorem businessNewsHandler_model_failure (res : HttpResponse) (k : String)
    (msg : String) (hok : res.ok = true) (hk : ¬k = "") :
    businessNewsHandler res (some k) (ModelOutcome.failure msg)
      = ToolOutput.errorEnvelope msg := by
  rw [businessNewsHandler, fetchTopHeadlines_ok res hok]
  simp [hk]

theorem parseToArticles_wrong_shape (j : Json)
    (h1 : ∀ xs, ¬j = Json.arr xs)
    (h2 : ∀ xs, ¬jsGet j "articles" = some (Json.arr xs)) :
    parseToArticles (some j) = [] := by
  cases j with
  | arr xs => exact absurd rfl (h1 xs)
  | obj kvs =>
    rw [parseToArticles]
    · cases hres : jsGet (Json.obj kvs) "articles" with
      | none => rfl
      | some v =>
        cases v with
        | arr xs => exact absurd hres (h2 xs)
        | null => rfl
        | bool b => rfl
        | num n => rfl
        | str s => rfl
        | obj kvs2 => rfl
    · exact fun xs h => Json.noConfusion h
  | null => rfl
  | bool b => rfl
  | num n => rfl
  | str s => rfl


/-! ### Claims -/

/-- C2 counterexample: normalization is NOT lossless-on-presence.  For the
input article `{}` the `description` field is absent in the provider
payload, yet the resulting article carries an explicit `null` for it; and
an explicit provider `null` under `title` is erased to absence. -/
theorem c2_counterexample :
    jsGet (Json.obj []) "description" = none ∧
    (mapArticle (Json.obj [])).description = some Json.null ∧
    jsGet (Json.obj [("title", Json.null)]) "title" = some Json.null ∧
    (mapArticle (Json.obj [("title", Json.null)])).title = none :=
  ⟨rfl, rfl, rfl, rfl⟩

/-- C2 (amended): normalization preserves absence only for the
pass-through fields `uuid`, `title`, `url`, `language`, `published_at`;
every other field (`description`, `keywords`, `snippet`, `image_url`,
`locale`, `source`, `categories`, `relevance_score`) is coerced to an
explicit `null` when absent from the provider payload.  An explicit
provider `null` is preserved for `uuid` and the nullable fields but is
coerced to absence for `title`, `url`, `language` and `published_at`. -/
theorem c2_amended_absence_mapping : ∀ a : Json,
    (jsGet a "uuid" = none → (mapArticle a).uuid = none) ∧
    (jsGet a "title" = none → (mapArticle a).title = none) ∧
    (jsGet a "url" = none → (mapArticle a).url = none) ∧
    (jsGet a "language" = none → (mapArticle a).language = none) ∧
    (jsGet a "published_at" = none → (mapArticle a).published_at = none) ∧
    (jsGet a "description" = none →
      (mapArticle a).description = some Json.null) ∧
    (jsGet a "keywords" = none → (mapArticle a).keywords = some Json.null) ∧
    (jsGet a "snippet" = none → (mapArticle a).snippet = some Json.null) ∧
    (jsGet a "image_url" = none → (mapArticle a).image_url = some Json.null) ∧
    (jsGet a "locale" = none → (mapArticle a).locale = some Json.null) ∧
    (jsGet a "source" = none → (mapArticle a).source = some Json.null) ∧
    (jsGet a "categories" = none →
      (mapArticle a).categories = some Json.null) ∧
    (jsGet a "relevance_score" = none →
      (mapArticle a).relevance_score = some Json.null) ∧
    (jsGet a "uuid" = some Json.null → (mapArticle a).uuid = some Json.null) ∧
    (jsGet a "description" = some Json.null →
      (mapArticle a).description = some Json.null) ∧
    (jsGet a "title" = some Json.null → (mapArticle a).title = none) := by
  intro a
  refine ⟨?_, ?_, ?_, ?_, ?_, ?_, ?_, ?_, ?_, ?_, ?_, ?_, ?_, ?_, ?_, ?_⟩ <;>
    intro h <;> simp [mapArticle, h, nullish, jsOptGet]

/-- C2 amended witness: the empty provider article and an explicit-null
`title`, evaluated. -/
theorem c2_amended_witness :
    (mapArticle (Json.obj [])).uuid = none ∧
    (mapArticle (Json.obj [])).description = some Json.null ∧
    (mapArticle (Json.obj [])).source = some Json.null ∧
    (mapArticle (Json.obj [("title", Json.null)])).title = none :=
  ⟨(c2_amended_absence_mapping (Json.obj [])).1 rfl,
   (c2_amended_absence_mapping (Json.obj [])).2.2.2.2.2.1 rfl,
   (c2_amended_absence_mapping (Json.obj [])).2.2.2.2.2.2.2.2.2.2.1 rfl,
   (c2_amended_absence_mapping (Json.obj [("title", Json.null)])).2.2.2.2.2.2.2.2.2.2.2.2.2.2.2 rfl⟩

/-- C5: when the `data` value is an object, normalization concatenates
every array-valued entry in the object's iteration order (non-array
entries contribute nothing) and maps each element; in particular
`\x7b "business": [a1], "tech": [a2, a3] \x7d` yields three articles in
the order `[a1, a2, a3]`. -/
theorem c5_flatten_categories :
    (∀ kvs : List (String × Json),
      mapTheNewsApiToNewsApiArticles (Json.obj [("data", Json.obj kvs)])
        = ((kvs.map (fun kv => jsonArrElems kv.2)).flatten).map mapArticle) ∧
    (∀ a1 a2 a3 : Json,
      mapTheNewsApiToNewsApiArticles
          (Json.obj [("data",
            Json.obj [("business", Json.arr [a1]),
                      ("tech", Json.arr [a2, a3])])])
        = [mapArticle a1, mapArticle a2, mapArticle a3]) := by
  constructor
  · intro kvs
    simp [mapTheNewsApiToNewsApiArticles, jsGet, lookupKV, foldl_pushArrays]
  · intro a1 a2 a3
    rfl

/-- C6: a flat array under `data` yields exactly one article per input
element in input order; a string-valued `source` passes through unchanged;
an object-valued `source` maps to its `domain` sub-field, resolving to an
explicit `null` when the sub-field is missing. -/
theorem c6_flat_array_mapping :
    (∀ xs : List Json,
      mapTheNewsApiToNewsApiArticles (Json.obj [("data", Json.arr xs)])
        = xs.map mapArticle) ∧
    (∀ (a : Json) (s : String), jsGet a "source" = some (Json.str s) →
      (mapArticle a).source = some (Json.str s)) ∧
    (∀ (a : Json) (kvs : List (String × Json)),
      jsGet a "source" = some (Json.obj kvs) →
      lookupKV kvs "domain" = none →
      (mapArticle a).source = some Json.null) ∧
    (∀ (a : Json) (kvs : List (String × Json)) (v : Json),
      jsGet a "source" = some (Json.obj kvs) →
      lookupKV kvs "domain" = some v → v ≠ Json.null →
      (mapArticle a).source = some v) := by
  refine ⟨?_, ?_, ?_, ?_⟩
  · intro xs
    simp [mapTheNewsApiToNewsApiArticles, jsGet, lookupKV]
  · intro a s h
    simp [mapArticle, h]
  · intro a kvs h hdom
    simp only [mapArticle]
    rw [h]
    simp [jsOptGet, jsGet, hdom, nullish]
  · intro a kvs v h hdom hv
    simp only [mapArticle]
    rw [h]
    simp [jsOptGet, jsGet, hdom, nullish_some_of_ne_null v _ hv]

/-- C6 witness: a one-element flat payload and the three `source` shapes,
evaluated. -/
theorem c6_witness :
    mapTheNewsApiToNewsApiArticles
        (Json.obj [("data", Json.arr [Json.num 1])])
      = [mapArticle (Json.num 1)] ∧
    (mapArticle (Json.obj [("source", Json.str "cnn")])).source
      = some (Json.str "cnn") ∧
    (mapArticle (Json.obj [("source", Json.obj [])])).source
      = some Json.null ∧
    (mapArticle (Json.obj
        [("source", Json.obj [("domain", Json.str "cnn.com")])])).source
      = some (Json.str "cnn.com") :=
  ⟨c6_flat_array_mapping.1 [Json.num 1],
   c6_flat_array_mapping.2.1 _ "cnn" rfl,
   c6_flat_array_mapping.2.2.1 _ [] rfl rfl,
   c6_flat_array_mapping.2.2.2 _ _ (Json.str "cnn.com") rfl rfl
     (fun h => Json.noConfusion h)⟩

/-- C9: normalization is total on arbitrary JSON input and returns the
empty list in every degenerate case: any value without a `data` field
(including all non-objects), and any `data` value that is neither an
array nor an object. -/
theorem c9_normalization_total :
    (∀ j : Json, jsGet j "data" = none →
      mapTheNewsApiToNewsApiArticles j = []) ∧
    (mapTheNewsApiToNewsApiArticles Json.null = []) ∧
    (∀ b, mapTheNewsApiToNewsApiArticles (Json.bool b) = []) ∧
    (∀ n, mapTheNewsApiToNewsApiArticles (Json.num n) = []) ∧
    (∀ s, mapTheNewsApiToNewsApiArticles (Json.str s) = []) ∧
    (∀ xs, mapTheNewsApiToNewsApiArticles (Json.arr xs) = []) ∧
    (mapTheNewsApiToNewsApiArticles (Json.obj [("data", Json.null)]) = []) ∧
    (∀ b, mapTheNewsApiToNewsApiArticles
        (Json.obj [("data", Json.bool b)]) = []) ∧
    (∀ n, mapTheNewsApiToNewsApiArticles
        (Json.obj [("data", Json.num n)]) = []) ∧
    (∀ s, mapTheNewsApiToNewsApiArticles
        (Json.obj [("data", Json.str s)]) = []) := by
  refine ⟨?_, rfl, fun b => rfl, fun n => rfl, fun s => rfl, fun xs => rfl,
    rfl, fun b => rfl, fun n => rfl, fun s => rfl⟩
  intro j h
  simp [mapTheNewsApiToNewsApiArticles, h]

/-- C9 witness: an object without a `data` key, evaluated through the
quantified branch. -/
theorem c9_witness :
    mapTheNewsApiToNewsApiArticles (Json.obj [("meta", Json.num 1)]) = [] :=
  c9_normalization_total.1 (Json.obj [("meta", Json.num 1)]) rfl

/-- C1 counterexample: when the model call itself fails (the promise
rejects, e.g. with "Connection error."), the `business_news` handler does
NOT fall back to an empty article list; the outer catch returns the error
envelope carrying the thrown message. -/
theorem c1_counterexample :
    businessNewsHandler ⟨true, Json.null⟩ (some "sk-test")
        (ModelOutcome.failure "Connection error.")
      = ToolOutput.errorEnvelope "Connection error." ∧
    ToolOutput.errorEnvelope "Connection error."
      ≠ ToolOutput.articlesEnvelope [] :=
  ⟨rfl, fun h => ToolOutput.noConfusion h⟩

/-- C1 (amended): when the headline fetch succeeds, the credential is
present, and the model call succeeds, an unparseable reply or a reply of
the wrong shape (neither an array nor a value with an array under
`articles`) yields the success envelope with an empty list; but when the
model call itself fails, its error message is surfaced in an error
envelope instead. -/
theorem c1_fail_open_on_malformed_output :
    (∀ (res : HttpResponse) (k : String) (content : Option String),
      res.ok = true → ¬k = "" →
      parseContent (contentToString content) = none →
      businessNewsHandler res (some k) (ModelOutcome.success content)
        = ToolOutput.articlesEnvelope []) ∧
    (∀ (res : HttpResponse) (k : String) (content : Option String)
        (j : Json),
      res.ok = true → ¬k = "" →
      parseContent (contentToString content) = some j →
      (∀ xs, ¬j = Json.arr xs) →
      (∀ xs, ¬jsGet j "articles" = some (Json.arr xs)) →
      businessNewsHandler res (some k) (ModelOutcome.success content)
        = ToolOutput.articlesEnvelope []) ∧
    (∀ (res : HttpResponse) (k : String) (msg : String),
      res.ok = true → ¬k = "" →
      businessNewsHandler res (some k) (ModelOutcome.failure msg)
        = ToolOutput.errorEnvelope msg) := by
  refine ⟨?_, ?_, ?_⟩
  · intro res k content hok hk hp
    rw [businessNewsHandler_success_path res k content hok hk, hp]
    rfl
  · intro res k content j hok hk hp h1 h2
    rw [businessNewsHandler_success_path res k content hok hk, hp,
      parseToArticles_wrong_shape j h1 h2]
  · intro res k msg hok hk
    exact businessNewsHandler_model_failure res k msg hok hk

/-- C1 amended witness: non-JSON text, a JSON string reply, and a failed
call, evaluated. -/
theorem c1_amended_witness :
    businessNewsHandler ⟨true, Json.null⟩ (some "sk")
        (ModelOutcome.success (some "not json"))
      = ToolOutput.articlesEnvelope [] ∧
    businessNewsHandler ⟨true, Json.null⟩ (some "sk")
        (ModelOutcome.success (some "\"hi\""))
      = ToolOutput.articlesEnvelope [] ∧
    businessNewsHandler ⟨true, Json.null⟩ (some "sk")
        (ModelOutcome.failure "Request timed out.")
      = ToolOutput.errorEnvelope "Request timed out." :=
  ⟨c1_fail_open_on_malformed_output.1 ⟨true, Json.null⟩ "sk"
      (some "not json") rfl (by decide) rfl,
   c1_fail_open_on_malformed_output.2.1 ⟨true, Json.null⟩ "sk"
      (some "\"hi\"") (Json.str "hi") rfl (by decide) rfl
      (fun xs h => Json.noConfusion h)
      (fun xs h => Option.noConfusion h),
   c1_fail_open_on_malformed_output.2.2 ⟨true, Json.null⟩ "sk"
      "Request timed out." rfl (by decide)⟩

/-- C3: when the fetch succeeds and `OPENAI_API_KEY` is unset or empty,
`business_news` returns the `Missing OPENAI_API_KEY` error envelope; the
result is independent of the model-call outcome, so no model call is
consulted. -/
theorem c3_missing_openai_key :
    ∀ (res : HttpResponse) (envKey : Option String) (m : ModelOutcome),
      res.ok = true → (envKey = none ∨ envKey = some "") →
      businessNewsHandler res envKey m
        = ToolOutput.errorEnvelope "Missing OPENAI_API_KEY" := by
  intro res envKey m hok hkey
  rw [businessNewsHandler.eq_def, fetchTopHeadlines_ok res hok]
  rcases hkey with rfl | rfl <;> rfl

/-- C3 witness: unset key with a successful fetch, evaluated for both
model outcomes. -/
theorem c3_witness :
    businessNewsHandler ⟨true, Json.null⟩ none
        (ModelOutcome.failure "never sent")
      = ToolOutput.errorEnvelope "Missing OPENAI_API_KEY" ∧
    businessNewsHandler ⟨true, Json.null⟩ (some "")
        (ModelOutcome.success (some "[]"))
      = ToolOutput.errorEnvelope "Missing OPENAI_API_KEY" :=
  ⟨c3_missing_openai_key ⟨true, Json.null⟩ none
      (ModelOutcome.failure "never sent") rfl (Or.inl rfl),
   c3_missing_openai_key ⟨true, Json.null⟩ (some "")
      (ModelOutcome.success (some "[]")) rfl (Or.inr rfl)⟩

/-- C4: a non-success HTTP status makes `fetchTopHeadlines` fail with the
message `Failed to fetch top headlines` (a single conditional, no retry),
and the `news` handler then returns that message in an error envelope. -/
theorem c4_upstream_failure :
    ∀ res : HttpResponse, res.ok = false →
      fetchTopHeadlines res
        = Except.error "Failed to fetch top headlines" ∧
      newsHandler res
        = ToolOutput.errorEnvelope "Failed to fetch top headlines" := by
  intro res h
  constructor <;> simp [fetchTopHeadlines, newsHandler, h]

/-- C4 witness: a failed provider response, evaluated. -/
theorem c4_witness :
    fetchTopHeadlines ⟨false, Json.null⟩
      = Except.error "Failed to fetch top headlines" ∧
    newsHandler ⟨false, Json.null⟩
      = ToolOutput.errorEnvelope "Failed to fetch top headlines" :=
  c4_upstream_failure ⟨false, Json.null⟩ rfl

/-- C7: a model reply that parses to a JSON array is returned verbatim as
the articles envelope; a reply that parses to an object with an `articles`
array has that array extracted and returned verbatim. -/
theorem c7_passthrough_shape :
    (∀ (res : HttpResponse) (k s : String) (xs : List Json),
      res.ok = true → ¬k = "" → ¬s = "" →
      jsonParse s = some (Json.arr xs) →
      businessNewsHandler res (some k) (ModelOutcome.success (some s))
        = ToolOutput.articlesEnvelope xs) ∧
    (∀ (res : HttpResponse) (k s : String)
        (kvs : List (String × Json)) (xs : List Json),
      res.ok = true → ¬k = "" → ¬s = "" →
      jsonParse s = some (Json.obj kvs) →
      lookupKV kvs "articles" = some (Json.arr xs) →
      businessNewsHandler res (some k) (ModelOutcome.success (some s))
        = ToolOutput.articlesEnvelope xs) := by
  constructor
  · intro res k s xs hok hk hs hp
    rw [businessNewsHandler_success_path res k (some s) hok hk]
    simp only [contentToString, parseContent, if_neg hs, hp]
    rfl
  · intro res k s kvs xs hok hk hs hp hart
    rw [businessNewsHandler_success_path res k (some s) hok hk]
    simp only [contentToString, parseContent, if_neg hs, hp]
    simp [parseToArticles, jsGet, hart]

/-- C7 witness: an array reply and an object reply with an `articles`
array, evaluated. -/
theorem c7_witness :
    businessNewsHandler ⟨true, Json.null⟩ (some "sk")
        (ModelOutcome.success (some "[1, 2]"))
      = ToolOutput.articlesEnvelope [Json.num 1, Json.num 2] ∧
    businessNewsHandler ⟨true, Json.null⟩ (some "sk")
        (ModelOutcome.success (some "\x7b\"articles\": [7]\x7d"))
      = ToolOutput.articlesEnvelope [Json.num 7] :=
  ⟨c7_passthrough_shape.1 ⟨true, Json.null⟩ "sk" "[1, 2]"
      [Json.num 1, Json.num 2] rfl (by decide) (by decide) rfl,
   c7_passthrough_shape.2 ⟨true, Json.null⟩ "sk" "\x7b\"articles\": [7]\x7d"
      [("articles", Json.arr [Json.num 7])] [Json.num 7]
      rfl (by decide) (by decide) rfl rfl⟩

/-- C8: on a successful fetch the synthesized summary satisfies
`found = returned = limit = length of the normalized list` and `page = 1`,
derived purely from that list. -/
theorem c8_meta_synthesized :
    ∀ res : HttpResponse, res.ok = true →
      fetchTopHeadlines res
        = Except.ok
            { meta :=
                { found := (mapTheNewsApiToNewsApiArticles res.body).length
                  returned :=
                    (mapTheNewsApiToNewsApiArticles res.body).length
                  limit := (mapTheNewsApiToNewsApiArticles res.body).length
                  page := 1 }
              data := mapTheNewsApiToNewsApiArticles res.body } :=
  fetchTopHeadlines_ok

/-- C8 witness: a successful empty-body fetch, evaluated. -/
theorem c8_witness :
    fetchTopHeadlines ⟨true, Json.null⟩
      = Except.ok
          { meta := { found := 0, returned := 0, limit := 0, page := 1 }
            data := [] } :=
  c8_meta_synthesized ⟨true, Json.null⟩ rfl

/-- C10: the fetch runs before the credential check, so a failed fetch
yields the upstream error envelope for every key configuration (including
an absent `OPENAI_API_KEY`) and every model outcome. -/
theorem c10_fetch_precedes_key_check :
    ∀ (res : HttpResponse) (envKey : Option String) (m : ModelOutcome),
      res.ok = false →
      businessNewsHandler res envKey m
        = ToolOutput.errorEnvelope "Failed to fetch top headlines" := by
  intro res envKey m h
  rw [businessNewsHandler.eq_def]
  simp [fetchTopHeadlines, h]

/-- C10 witness: failed fetch with the key also absent, evaluated. -/
theorem c10_witness :
    businessNewsHandler ⟨false, Json.null⟩ none
        (ModelOutcome.failure "never sent")
      = ToolOutput.errorEnvelope "Failed to fetch top headlines" :=
  c10_fetch_precedes_key_check ⟨false, Json.null⟩ none
    (ModelOutcome.failure "never sent") rfl
